import Mathlib

/-!
# Solar System Simulation: window / context bootstrap

A shallow embedding of `src/main.cpp`: the class `Window` (constructor,
`isValid`, `shouldClose`, `swapBuffers`, destructor) and `main`.

The windowing library (GLFW), the function loader (GLAD) and the graphics
API are external.  Their answers are given by an environment `Env`; every
call made to them, and every line written to `std::cerr`, is appended to
a trace kept in `World`.  Pointers are natural numbers, `0` being the null
pointer; C `int` results are `Int`, tested the way C tests them
(`!x` is `x = 0`).
-/

namespace SolarSystem

/-! ## External vocabulary -/

/-- Hint names passed to `glfwWindowHint` (macros of the GLFW header). -/
inductive Hint where
  | GLFW_CONTEXT_VERSION_MAJOR
  | GLFW_CONTEXT_VERSION_MINOR
  | GLFW_OPENGL_PROFILE
  | GLFW_OPENGL_FORWARD_COMPAT
  deriving DecidableEq, Repr

/-- Hint values passed to `glfwWindowHint`: an integer literal or a header macro. -/
inductive HintValue where
  | lit (n : Int)
  | GLFW_OPENGL_CORE_PROFILE
  | GL_TRUE
  deriving DecidableEq, Repr

/-- Buffer masks passed to `glClear` (macros of the graphics header). -/
inductive ClearMask where
  | GL_COLOR_BUFFER_BIT
  deriving DecidableEq, Repr

/-- One observable action of the program: a call into an external library
or a line written to `std::cerr` (the text before `std::endl`). -/
inductive Event where
  | glfwInit
  | glfwWindowHint (hint : Hint) (value : HintValue)
  | glfwCreateWindow (width height : Nat) (title : String) (monitor share : Nat)
  | glfwMakeContextCurrent (window : Nat)
  | gladLoadGLLoader
  | glfwDestroyWindow (window : Nat)
  | glfwTerminate
  | glfwWindowShouldClose (window : Nat)
  | glfwSwapBuffers (window : Nat)
  | glfwPollEvents
  | glClearColor (red green blue alpha : Int)
  | glClear (mask : ClearMask)
  | cerr (line : String)
  deriving DecidableEq, Repr

/-- Answers of the external libraries, and the platform the program is built for. -/
structure Env where
  /-- whether `__APPLE__` is defined -/
  apple : Bool
  /-- result of `glfwInit()` -/
  glfwInit : Int
  /-- pointer returned by `glfwCreateWindow(...)`, `0` for `NULL` -/
  glfwCreateWindow : Nat
  /-- result of `gladLoadGLLoader(...)` -/
  gladLoadGLLoader : Int
  /-- result of the `k`-th call (from 0) of `glfwWindowShouldClose` -/
  glfwWindowShouldClose : Nat → Int

/-- The world outside the program: what was done so far, oldest first, and
how many close queries were answered. -/
structure World where
  trace : List Event
  closeQueries : Nat

/-- The world when `main` starts. -/
def World.start : World := { trace := [], closeQueries := 0 }

/-- Record one event. -/
def World.emit (w : World) (e : Event) : World :=
  { w with trace := w.trace ++ [e] }

/-! ## class Window -/

/-- Data members of `Window` that change: the window pointer and the flag. -/
structure Window where
  window : Nat
  initialized : Bool
  deriving DecidableEq, Repr

/-- Member `SCR_WIDTH`. -/
def Window.SCR_WIDTH : Nat := 1290

/-- Member `SCR_HEIGHT`. -/
def Window.SCR_HEIGHT : Nat := 720

/-- The constructor `Window::Window()`. -/
def Window.ctor (env : Env) (w : World) : Window × World :=
  -- default member initialisers
  let self : Window := { window := 0, initialized := false }
  let w := w.emit .glfwInit
  if env.glfwInit = 0 then
    let w := w.emit (.cerr "Failed to initialize GLFW")
    (self, w)
  else
    let w := w.emit (.glfwWindowHint .GLFW_CONTEXT_VERSION_MAJOR (.lit 3))
    let w := w.emit (.glfwWindowHint .GLFW_CONTEXT_VERSION_MINOR (.lit 3))
    let w := w.emit (.glfwWindowHint .GLFW_OPENGL_PROFILE .GLFW_OPENGL_CORE_PROFILE)
    let w := if env.apple then
        w.emit (.glfwWindowHint .GLFW_OPENGL_FORWARD_COMPAT .GL_TRUE)
      else w
    let w := w.emit (.glfwCreateWindow Window.SCR_WIDTH Window.SCR_HEIGHT
      "Solar System Simulation" 0 0)
    let self : Window := { self with window := env.glfwCreateWindow }
    if self.window = 0 then
      let w := w.emit (.cerr "Failed to create GLFW window")
      let w := w.emit .glfwTerminate
      (self, w)
    else
      let w := w.emit (.glfwMakeContextCurrent self.window)
      let w := w.emit .gladLoadGLLoader
      if env.gladLoadGLLoader = 0 then
        let w := w.emit (.cerr "Failed to initialize GLAD")
        let w := w.emit (.glfwDestroyWindow self.window)
        let w := w.emit .glfwTerminate
        (self, w)
      else
        ({ self with initialized := true }, w)

/-- The method `Window::isValid() const`. -/
def Window.isValid (self : Window) : Bool :=
  self.initialized

/-- The method `Window::shouldClose()`: the answer, the object and the world afterwards. -/
def Window.shouldClose (self : Window) (env : Env) (w : World) : Bool × Window × World :=
  let r := env.glfwWindowShouldClose w.closeQueries
  let w : World := { trace := w.trace ++ [.glfwWindowShouldClose self.window],
                     closeQueries := w.closeQueries + 1 }
  (decide (r ≠ 0), self, w)

/-- The method `Window::swapBuffers()`: the object and the world afterwards. -/
def Window.swapBuffers (self : Window) (w : World) : Window × World :=
  (self, w.emit (.glfwSwapBuffers self.window))

/-- The destructor `Window::~Window()`. -/
def Window.dtor (self : Window) (w : World) : World :=
  let w := if self.window ≠ 0 then w.emit (.glfwDestroyWindow self.window) else w
  w.emit .glfwTerminate

/-! ## main -/

/-- The `while` loop of `main`; every test of the condition takes one unit of
fuel, and `none` means the fuel ran out. -/
def renderLoop (env : Env) : Nat → Window → World → Option (Window × World)
  | 0, _, _ => none
  | fuel + 1, window, w =>
    let (close, window, w) := window.shouldClose env w
    if !close then
      let w := w.emit (.glClearColor 0 0 0 1)
      let w := w.emit (.glClear .GL_COLOR_BUFFER_BIT)
      let (window, w) := window.swapBuffers w
      let w := w.emit .glfwPollEvents
      renderLoop env fuel window w
    else
      some (window, w)

/-- The function `main`: its return value and the world after the local
`Window` was destroyed; `none` when the loop ran out of fuel. -/
def main (env : Env) (fuel : Nat) : Option (Int × World) :=
  let (window, w) := Window.ctor env World.start
  if !window.isValid then
    some (-1, window.dtor w)
  else
    match renderLoop env fuel window w with
    | none => none
    | some (window, w) => some (0, window.dtor w)

/-! ## Vocabulary of the properties -/

/-- The event is a call into an external library (not a write to `std::cerr`). -/
def Event.isLibraryCall : Event → Bool
  | .cerr _ => false
  | _ => true

/-- The event is a `glfwDestroyWindow` call. -/
def Event.isDestroyWindow : Event → Bool
  | .glfwDestroyWindow _ => true
  | _ => false

/-- The event is a `glfwCreateWindow` call. -/
def Event.isCreateWindow : Event → Bool
  | .glfwCreateWindow .. => true
  | _ => false

/-- The event is a `glfwMakeContextCurrent` call. -/
def Event.isMakeContextCurrent : Event → Bool
  | .glfwMakeContextCurrent _ => true
  | _ => false

/-- The event is a `glfwWindowShouldClose` call. -/
def Event.isShouldClose : Event → Bool
  | .glfwWindowShouldClose _ => true
  | _ => false

/-- The event is a `glfwSwapBuffers` call. -/
def Event.isSwapBuffers : Event → Bool
  | .glfwSwapBuffers _ => true
  | _ => false

/-- The event belongs to the render loop: a close query, a clear-colour or
clear call, a buffer swap or an event poll. -/
def Event.isLoopCall : Event → Bool
  | .glfwWindowShouldClose _ => true
  | .glClearColor .. => true
  | .glClear _ => true
  | .glfwSwapBuffers _ => true
  | .glfwPollEvents => true
  | _ => false

/-- The lines written to `std::cerr`, oldest first. -/
def errLines : List Event → List String
  | [] => []
  | .cerr s :: es => s :: errLines es
  | _ :: es => errLines es

/-- The window hints the constructor sets before creating the window. -/
def hintEvents (apple : Bool) : List Event :=
  [.glfwWindowHint .GLFW_CONTEXT_VERSION_MAJOR (.lit 3),
   .glfwWindowHint .GLFW_CONTEXT_VERSION_MINOR (.lit 3),
   .glfwWindowHint .GLFW_OPENGL_PROFILE .GLFW_OPENGL_CORE_PROFILE] ++
  (if apple then [.glfwWindowHint .GLFW_OPENGL_FORWARD_COMPAT .GL_TRUE] else [])

/-- The `glfwCreateWindow` call of the constructor. -/
def createEvent : Event :=
  .glfwCreateWindow 1290 720 "Solar System Simulation" 0 0

/-- What was recorded between the world `before` and the later world `after`. -/
def emitted (before after : World) : List Event :=
  after.trace.drop before.trace.length

/-- The operations a caller can perform on a constructed `Window` before
it is destroyed. -/
inductive Op where
  | isValid
  | shouldClose
  | swapBuffers
  deriving DecidableEq, Repr

/-- Perform one operation; the result of the operation is dropped, the
object and the world afterwards are kept. -/
def Window.step (env : Env) : Op → Window × World → Window × World
  | .isValid, (self, w) =>
    let _ := self.isValid
    (self, w)
  | .shouldClose, (self, w) => (self.shouldClose env w).2
  | .swapBuffers, (self, w) => self.swapBuffers w

/-- Perform a sequence of operations, first to last. -/
def Window.run (env : Env) (ops : List Op) (s : Window × World) : Window × World :=
  ops.foldl (fun s op => Window.step env op s) s

/-- The events of one frame of the render loop on window `h`, the close
query that admits the frame first. -/
def frameEvents (h : Nat) : List Event :=
  [.glfwWindowShouldClose h, .glClearColor 0 0 0 1, .glClear .GL_COLOR_BUFFER_BIT,
   .glfwSwapBuffers h, .glfwPollEvents]

/-- The events of `n` consecutive frames on window `h`. -/
def framesEvents (h : Nat) : Nat → List Event
  | 0 => []
  | n + 1 => frameEvents h ++ framesEvents h n

/-- The event is a teardown call: `glfwDestroyWindow` or `glfwTerminate`. -/
def Event.isTeardown : Event → Bool
  | .glfwDestroyWindow _ => true
  | .glfwTerminate => true
  | _ => false

/-! ## Sample environments -/

/-- An environment in which `glfwInit` fails. -/
def envInitFail : Env :=
  { apple := false, glfwInit := 0, glfwCreateWindow := 5, gladLoadGLLoader := 1,
    glfwWindowShouldClose := fun _ => 1 }

/-- An environment in which `glfwCreateWindow` returns `NULL`. -/
def envCreateFail : Env :=
  { apple := true, glfwInit := 1, glfwCreateWindow := 0, gladLoadGLLoader := 1,
    glfwWindowShouldClose := fun _ => 1 }

/-- An environment in which window `5` is created and function loading fails. -/
def envGladFail : Env :=
  { apple := false, glfwInit := 1, glfwCreateWindow := 5, gladLoadGLLoader := 0,
    glfwWindowShouldClose := fun _ => 1 }

/-- An environment in which setup succeeds with window `5` and the close
signal is first seen by the third query. -/
def envOk : Env :=
  { apple := false, glfwInit := 1, glfwCreateWindow := 5, gladLoadGLLoader := 1,
    glfwWindowShouldClose := fun k => if k < 2 then 0 else 1 }

/-! ## The constructor, case by case -/

theorem emitted_append (w : World) (es : List Event) (q : Nat) :
    emitted w { trace := w.trace ++ es, closeQueries := q } = es := by
  simp [emitted]

theorem ctor_of_init_fail (env : Env) (w : World) (h : env.glfwInit = 0) :
    Window.ctor env w =
      ({ window := 0, initialized := false },
       { trace := w.trace ++ [.glfwInit, .cerr "Failed to initialize GLFW"],
         closeQueries := w.closeQueries }) := by
  simp [Window.ctor, World.emit, h]

theorem ctor_of_create_fail (env : Env) (w : World) (hi : env.glfwInit ≠ 0)
    (hc : env.glfwCreateWindow = 0) :
    Window.ctor env w =
      ({ window := 0, initialized := false },
       { trace := w.trace ++ ([.glfwInit] ++ hintEvents env.apple ++
           [createEvent, .cerr "Failed to create GLFW window", .glfwTerminate]),
         closeQueries := w.closeQueries }) := by
  cases ha : env.apple <;>
    simp [Window.ctor, World.emit, hi, hc, ha, hintEvents, createEvent,
      Window.SCR_WIDTH, Window.SCR_HEIGHT]

theorem ctor_of_glad_fail (env : Env) (w : World) (hi : env.glfwInit ≠ 0)
    (hc : env.glfwCreateWindow ≠ 0) (hg : env.gladLoadGLLoader = 0) :
    Window.ctor env w =
      ({ window := env.glfwCreateWindow, initialized := false },
       { trace := w.trace ++ ([.glfwInit] ++ hintEvents env.apple ++
           [createEvent, .glfwMakeContextCurrent env.glfwCreateWindow, .gladLoadGLLoader,
            .cerr "Failed to initialize GLAD", .glfwDestroyWindow env.glfwCreateWindow,
            .glfwTerminate]),
         closeQueries := w.closeQueries }) := by
  cases ha : env.apple <;>
    simp [Window.ctor, World.emit, hi, hc, hg, ha, hintEvents, createEvent,
      Window.SCR_WIDTH, Window.SCR_HEIGHT]

theorem ctor_of_ok (env : Env) (w : World) (hi : env.glfwInit ≠ 0)
    (hc : env.glfwCreateWindow ≠ 0) (hg : env.gladLoadGLLoader ≠ 0) :
    Window.ctor env w =
      ({ window := env.glfwCreateWindow, initialized := true },
       { trace := w.trace ++ ([.glfwInit] ++ hintEvents env.apple ++
           [createEvent, .glfwMakeContextCurrent env.glfwCreateWindow, .gladLoadGLLoader]),
         closeQueries := w.closeQueries }) := by
  cases ha : env.apple <;>
    simp [Window.ctor, World.emit, hi, hc, hg, ha, hintEvents, createEvent,
      Window.SCR_WIDTH, Window.SCR_HEIGHT]

theorem ctor_invalid_iff (env : Env) (w : World) :
    (Window.ctor env w).1.isValid = false ↔
      ¬ (env.glfwInit ≠ 0 ∧ env.glfwCreateWindow ≠ 0 ∧ env.gladLoadGLLoader ≠ 0) := by
  by_cases hi : env.glfwInit = 0
  · simp [ctor_of_init_fail env w hi, Window.isValid, hi]
  · by_cases hc : env.glfwCreateWindow = 0
    · simp [ctor_of_create_fail env w hi hc, Window.isValid, hc]
    · by_cases hg : env.gladLoadGLLoader = 0
      · simp [ctor_of_glad_fail env w hi hc hg, Window.isValid, hg]
      · simp [ctor_of_ok env w hi hc hg, Window.isValid, hi, hc, hg]

/-! ## Claims about the constructor -/

/-- C1: after the constructor returns, `isValid()` is true exactly when
library init succeeded, window creation returned a non-null pointer and
function loading succeeded; in every other case it is false. -/
theorem isValid_iff_setupOk (env : Env) (w : World) :
    ((Window.ctor env w).1.isValid = true ↔
      (env.glfwInit ≠ 0 ∧ env.glfwCreateWindow ≠ 0 ∧ env.gladLoadGLLoader ≠ 0)) ∧
    ((Window.ctor env w).1.isValid = false ↔
      ¬ (env.glfwInit ≠ 0 ∧ env.glfwCreateWindow ≠ 0 ∧ env.gladLoadGLLoader ≠ 0)) := by
  by_cases hi : env.glfwInit = 0
  · simp [ctor_of_init_fail env w hi, Window.isValid, hi]
  · by_cases hc : env.glfwCreateWindow = 0
    · simp [ctor_of_create_fail env w hi hc, Window.isValid, hc]
    · by_cases hg : env.gladLoadGLLoader = 0
      · simp [ctor_of_glad_fail env w hi hc hg, Window.isValid, hg]
      · simp [ctor_of_ok env w hi hc hg, Window.isValid, hi, hc, hg]

/-- C4: when `glfwInit` fails, the constructor records exactly the
`glfwInit` call and one error line: `glfwInit` is its only library call
(no hint, window creation, make-context-current, function loading,
window destroy or library shutdown), the window pointer stays null and
`isValid()` is false. -/
theorem ctor_init_failure (env : Env) (w : World) (h : env.glfwInit = 0) :
    (Window.ctor env w).2.trace =
      w.trace ++ [.glfwInit, .cerr "Failed to initialize GLFW"] ∧
    (emitted w (Window.ctor env w).2).filter Event.isLibraryCall = [.glfwInit] ∧
    (Window.ctor env w).1.window = 0 ∧
    (Window.ctor env w).1.isValid = false := by
  rw [ctor_of_init_fail env w h, emitted_append]
  simp [Window.isValid, Event.isLibraryCall]

/-- C5: when `glfwInit` succeeds and `glfwCreateWindow` returns null, the
constructor has called `glfwTerminate` exactly once when it returns, has
made no make-context-current, function-loading or window-destroy call,
the stored pointer is null and `isValid()` is false. -/
theorem ctor_create_failure (env : Env) (w : World) (hi : env.glfwInit ≠ 0)
    (hc : env.glfwCreateWindow = 0) :
    (Window.ctor env w).2.trace =
      w.trace ++ ([.glfwInit] ++ hintEvents env.apple ++
        [createEvent, .cerr "Failed to create GLFW window", .glfwTerminate]) ∧
    (emitted w (Window.ctor env w).2).count .glfwTerminate = 1 ∧
    (emitted w (Window.ctor env w).2).countP Event.isMakeContextCurrent = 0 ∧
    (emitted w (Window.ctor env w).2).count .gladLoadGLLoader = 0 ∧
    (emitted w (Window.ctor env w).2).countP Event.isDestroyWindow = 0 ∧
    (Window.ctor env w).1.window = 0 ∧
    (Window.ctor env w).1.isValid = false := by
  rw [ctor_of_create_fail env w hi hc, emitted_append]
  cases env.apple <;> simp [Window.isValid, hintEvents, createEvent, List.count_cons,
    Event.isMakeContextCurrent, Event.isDestroyWindow]

/-- C6: when `glfwInit` and `glfwCreateWindow` succeed and function
loading fails, the constructor ends with, in this order, make-context-
current on the created window, the function loading, the error line,
`glfwDestroyWindow` on the created window and `glfwTerminate`; the window
destroy and the library shutdown each happen exactly once, and
`isValid()` is false. -/
theorem ctor_glad_failure (env : Env) (w : World) (hi : env.glfwInit ≠ 0)
    (hc : env.glfwCreateWindow ≠ 0) (hg : env.gladLoadGLLoader = 0) :
    (Window.ctor env w).2.trace =
      w.trace ++ ([.glfwInit] ++ hintEvents env.apple ++
        [createEvent, .glfwMakeContextCurrent env.glfwCreateWindow, .gladLoadGLLoader,
         .cerr "Failed to initialize GLAD", .glfwDestroyWindow env.glfwCreateWindow,
         .glfwTerminate]) ∧
    (emitted w (Window.ctor env w).2).countP Event.isDestroyWindow = 1 ∧
    (emitted w (Window.ctor env w).2).count (.glfwDestroyWindow env.glfwCreateWindow) = 1 ∧
    (emitted w (Window.ctor env w).2).count .glfwTerminate = 1 ∧
    (emitted w (Window.ctor env w).2).count .gladLoadGLLoader = 1 ∧
    (Window.ctor env w).1.isValid = false := by
  rw [ctor_of_glad_fail env w hi hc hg, emitted_append]
  cases env.apple <;> simp [Window.isValid, hintEvents, createEvent, List.count_cons,
    Event.isDestroyWindow]

/-- C9: the constructor writes no error line when setup fully succeeds and
exactly one when a step fails; the line is the message of the first
failing step, and the three messages are pairwise distinct. -/
theorem ctor_error_lines (env : Env) (w : World) :
    errLines (emitted w (Window.ctor env w).2) =
      (if env.glfwInit = 0 then ["Failed to initialize GLFW"]
       else if env.glfwCreateWindow = 0 then ["Failed to create GLFW window"]
       else if env.gladLoadGLLoader = 0 then ["Failed to initialize GLAD"]
       else []) ∧
    (errLines (emitted w (Window.ctor env w).2)).length =
      (if env.glfwInit ≠ 0 ∧ env.glfwCreateWindow ≠ 0 ∧ env.gladLoadGLLoader ≠ 0
       then 0 else 1) ∧
    "Failed to initialize GLFW" ≠ "Failed to create GLFW window" ∧
    "Failed to initialize GLFW" ≠ "Failed to initialize GLAD" ∧
    "Failed to create GLFW window" ≠ "Failed to initialize GLAD" := by
  refine ⟨?_, ?_, by decide, by decide, by decide⟩
  · by_cases hi : env.glfwInit = 0
    · rw [ctor_of_init_fail env w hi, emitted_append]; simp [hi, errLines]
    · by_cases hc : env.glfwCreateWindow = 0
      · rw [ctor_of_create_fail env w hi hc, emitted_append]
        cases env.apple <;> simp [hi, hc, errLines, hintEvents, createEvent]
      · by_cases hg : env.gladLoadGLLoader = 0
        · rw [ctor_of_glad_fail env w hi hc hg, emitted_append]
          cases env.apple <;> simp [hi, hc, hg, errLines, hintEvents, createEvent]
        · rw [ctor_of_ok env w hi hc hg, emitted_append]
          cases env.apple <;> simp [hi, hc, hg, errLines, hintEvents, createEvent]
  · by_cases hi : env.glfwInit = 0
    · rw [ctor_of_init_fail env w hi, emitted_append]; simp [hi, errLines]
    · by_cases hc : env.glfwCreateWindow = 0
      · rw [ctor_of_create_fail env w hi hc, emitted_append]
        cases env.apple <;> simp [hi, hc, errLines, hintEvents, createEvent]
      · by_cases hg : env.gladLoadGLLoader = 0
        · rw [ctor_of_glad_fail env w hi hc hg, emitted_append]
          cases env.apple <;> simp [hi, hc, hg, errLines, hintEvents, createEvent]
        · rw [ctor_of_ok env w hi hc hg, emitted_append]
          cases env.apple <;> simp [hi, hc, hg, errLines, hintEvents, createEvent]

/-! ## Claims about the destructor -/

/-- C7: for every `Window` state the destructor calls `glfwDestroyWindow`
on the stored pointer once when that pointer is non-null and not at all
when it is null, and then calls `glfwTerminate` exactly once, whatever the
pointer and the `initialized` flag are. -/
theorem dtor_calls (self : Window) (w : World) :
    (self.dtor w).trace =
      w.trace ++ ((if self.window ≠ 0 then [.glfwDestroyWindow self.window] else []) ++
        [Event.glfwTerminate]) ∧
    (self.dtor w).closeQueries = w.closeQueries ∧
    (emitted w (self.dtor w)).countP Event.isDestroyWindow =
      (if self.window ≠ 0 then 1 else 0) ∧
    (emitted w (self.dtor w)).count .glfwTerminate = 1 ∧
    (emitted w (self.dtor w)).getLast? = some .glfwTerminate := by
  by_cases h : self.window = 0 <;>
    simp [Window.dtor, World.emit, emitted, h, Event.isDestroyWindow, List.count_cons]

/-! ## Claims about the operations between construction and destruction -/

theorem step_fst (env : Env) (op : Op) (s : Window × World) :
    (Window.step env op s).1 = s.1 := by
  obtain ⟨self, v⟩ := s
  cases op <;> simp [Window.step, Window.shouldClose, Window.swapBuffers]

theorem run_fst (env : Env) (ops : List Op) :
    ∀ s : Window × World, (Window.run env ops s).1 = s.1 := by
  induction ops with
  | nil => intro s; rfl
  | cons op ops ih =>
    intro s
    have h := ih (Window.step env op s)
    simp only [Window.run, List.foldl_cons] at h ⊢
    rw [h, step_fst]

/-- C8: after a fully successful construction `isValid()` is true after
every finite sequence of `isValid`, `shouldClose` and `swapBuffers` calls:
the object (flag and window pointer) is the one the constructor left, no
operation changes the object in any state, and `isValid` leaves the world
as it was (it makes no library call). -/
theorem isValid_stable (env : Env) (w : World) (ops : List Op)
    (hi : env.glfwInit ≠ 0) (hc : env.glfwCreateWindow ≠ 0)
    (hg : env.gladLoadGLLoader ≠ 0) :
    (Window.run env ops (Window.ctor env w)).1.isValid = true ∧
    (Window.run env ops (Window.ctor env w)).1 =
      { window := env.glfwCreateWindow, initialized := true } ∧
    (∀ (op : Op) (self : Window) (v : World), (Window.step env op (self, v)).1 = self) ∧
    (∀ (self : Window) (v : World), Window.step env .isValid (self, v) = (self, v)) := by
  refine ⟨?_, ?_, fun op self v => step_fst env op (self, v), fun _ _ => rfl⟩
  · rw [run_fst, ctor_of_ok env w hi hc hg]; rfl
  · rw [run_fst, ctor_of_ok env w hi hc hg]

/-! ## Claims about main -/

theorem countP_framesEvents_shouldClose (h n : Nat) :
    (framesEvents h n).countP Event.isShouldClose = n := by
  induction n with
  | zero => rfl
  | succ n ih =>
    simp [framesEvents, frameEvents, List.countP_append, List.countP_cons,
      Event.isShouldClose, ih]

theorem countP_framesEvents_swapBuffers (h n : Nat) :
    (framesEvents h n).countP Event.isSwapBuffers = n := by
  induction n with
  | zero => rfl
  | succ n ih =>
    simp [framesEvents, frameEvents, List.countP_append, List.countP_cons,
      Event.isSwapBuffers, ih]

theorem count_framesEvents_pollEvents (h n : Nat) :
    (framesEvents h n).count .glfwPollEvents = n := by
  induction n with
  | zero => rfl
  | succ n ih =>
    simp [framesEvents, frameEvents, List.count_append, List.count_cons, ih]

theorem renderLoop_frames (env : Env) (n : Nat) :
    ∀ (fuel : Nat) (self : Window) (w : World), n < fuel →
      (∀ k, k < n → env.glfwWindowShouldClose (w.closeQueries + k) = 0) →
      env.glfwWindowShouldClose (w.closeQueries + n) ≠ 0 →
      renderLoop env fuel self w =
        some (self, { trace := w.trace ++ (framesEvents self.window n ++
                        [.glfwWindowShouldClose self.window]),
                      closeQueries := w.closeQueries + n + 1 }) := by
  induction n with
  | zero =>
    intro fuel self w hf _ hclose
    obtain ⟨fuel, rfl⟩ : ∃ m, fuel = m + 1 := ⟨fuel - 1, by omega⟩
    simp only [Nat.add_zero] at hclose
    simp [renderLoop, Window.shouldClose, hclose, framesEvents]
  | succ n ih =>
    intro fuel self w hf hopen hclose
    obtain ⟨fuel, rfl⟩ : ∃ m, fuel = m + 1 := ⟨fuel - 1, by omega⟩
    have h0 : env.glfwWindowShouldClose w.closeQueries = 0 := by
      simpa using hopen 0 (by omega)
    have hrec := ih fuel self
      { trace := w.trace ++ frameEvents self.window, closeQueries := w.closeQueries + 1 }
      (by omega)
      (fun k hk => by
        have := hopen (k + 1) (by omega)
        simpa [Nat.add_assoc, Nat.add_comm 1 k] using this)
      (by simpa [Nat.add_assoc, Nat.add_comm 1 n] using hclose)
    simp only [renderLoop, Window.shouldClose, Window.swapBuffers, World.emit, h0]
    simp only [ne_eq, not_true_eq_false, decide_False, Bool.not_false, if_true,
      List.append_assoc, List.singleton_append, List.cons_append, List.nil_append]
    simp only [frameEvents, List.append_assoc, List.singleton_append, List.cons_append,
      List.nil_append] at hrec
    rw [hrec]
    simp [framesEvents, frameEvents, Nat.add_assoc, Nat.add_comm 1 n]

theorem main_of_invalid (env : Env) (fuel : Nat)
    (h : (Window.ctor env World.start).1.isValid = false) :
    main env fuel =
      some (-1, (Window.ctor env World.start).1.dtor (Window.ctor env World.start).2) := by
  simp [main, h]

theorem ctor_no_loop_call (env : Env) :
    (Window.ctor env World.start).2.trace.countP Event.isLoopCall = 0 ∧
    (Window.ctor env World.start).2.closeQueries = 0 := by
  by_cases hi : env.glfwInit = 0
  · rw [ctor_of_init_fail env _ hi]; simp [World.start, Event.isLoopCall]
  · by_cases hc : env.glfwCreateWindow = 0
    · rw [ctor_of_create_fail env _ hi hc]
      cases env.apple <;> simp [World.start, Event.isLoopCall, hintEvents, createEvent]
    · by_cases hg : env.gladLoadGLLoader = 0
      · rw [ctor_of_glad_fail env _ hi hc hg]
        cases env.apple <;> simp [World.start, Event.isLoopCall, hintEvents, createEvent]
      · rw [ctor_of_ok env _ hi hc hg]
        cases env.apple <;> simp [World.start, Event.isLoopCall, hintEvents, createEvent]

/-- C2: when at least one setup step fails, `main` returns `-1` (for every
amount of fuel: the loop is never entered) after running only the
constructor and the destructor; the whole run contains no close query,
clear-colour, clear, buffer-swap or poll-events call, no close query was
answered, and everything done after the constructor returned, with the
`initialized` flag false, is teardown. -/
theorem main_setup_failure (env : Env) (fuel : Nat)
    (h : ¬ (env.glfwInit ≠ 0 ∧ env.glfwCreateWindow ≠ 0 ∧ env.gladLoadGLLoader ≠ 0)) :
    main env fuel =
      some (-1, (Window.ctor env World.start).1.dtor (Window.ctor env World.start).2) ∧
    (main env fuel).map (fun r => r.1) = some (-1) ∧
    (main env fuel).map (fun r => r.2.trace.countP Event.isLoopCall) = some 0 ∧
    (main env fuel).map (fun r => r.2.closeQueries) = some 0 ∧
    (main env fuel).map
      (fun r => (emitted (Window.ctor env World.start).2 r.2).all Event.isTeardown) =
      some true ∧
    (Window.ctor env World.start).1.initialized = false := by
  have hv : (Window.ctor env World.start).1.isValid = false :=
    (ctor_invalid_iff env World.start).mpr h
  have hm := main_of_invalid env fuel hv
  obtain ⟨hl, hq⟩ := ctor_no_loop_call env
  refine ⟨hm, ?_, ?_, ?_, ?_, hv⟩
  · rw [hm]; rfl
  · rw [hm]
    by_cases hw : (Window.ctor env World.start).1.window = 0 <;>
      simp [Window.dtor, World.emit, hw, List.countP_append, hl, Event.isLoopCall]
  · rw [hm]
    by_cases hw : (Window.ctor env World.start).1.window = 0 <;>
      simp [Window.dtor, World.emit, hw, hq]
  · rw [hm]
    by_cases hw : (Window.ctor env World.start).1.window = 0 <;>
      simp [Window.dtor, World.emit, hw, emitted, Event.isTeardown]

/-- C3: when setup fully succeeds and the first non-zero answer of the
close query is answer number `n` (from 0), `main` returns `0` given more
than `n` units of fuel, and its run is: the constructor, then `n` frames,
each one close query followed by clear colour (0,0,0,1), clear of the
colour buffer, one buffer swap and one event poll, then one last close
query, then the destructor; the close query is made `n + 1` times. -/
theorem main_success_frames (env : Env) (n fuel : Nat)
    (hi : env.glfwInit ≠ 0) (hc : env.glfwCreateWindow ≠ 0)
    (hg : env.gladLoadGLLoader ≠ 0)
    (hopen : ∀ k, k < n → env.glfwWindowShouldClose k = 0)
    (hclose : env.glfwWindowShouldClose n ≠ 0) (hfuel : n < fuel) :
    main env fuel =
      some (0, { trace :=
                   [.glfwInit] ++ hintEvents env.apple ++
                   [createEvent, .glfwMakeContextCurrent env.glfwCreateWindow,
                    .gladLoadGLLoader] ++
                   framesEvents env.glfwCreateWindow n ++
                   [.glfwWindowShouldClose env.glfwCreateWindow] ++
                   [.glfwDestroyWindow env.glfwCreateWindow, .glfwTerminate],
                 closeQueries := n + 1 }) ∧
    (main env fuel).map (fun r => r.2.trace.countP Event.isShouldClose) = some (n + 1) ∧
    (main env fuel).map (fun r => r.2.trace.countP Event.isSwapBuffers) = some n ∧
    (main env fuel).map (fun r => r.2.trace.count .glfwPollEvents) = some n ∧
    framesEvents env.glfwCreateWindow (n + 1) =
      [.glfwWindowShouldClose env.glfwCreateWindow, .glClearColor 0 0 0 1,
       .glClear .GL_COLOR_BUFFER_BIT, .glfwSwapBuffers env.glfwCreateWindow,
       .glfwPollEvents] ++ framesEvents env.glfwCreateWindow n := by
  have hctor := ctor_of_ok env World.start hi hc hg
  have hloop := renderLoop_frames env n fuel
    { window := env.glfwCreateWindow, initialized := true }
    { trace := World.start.trace ++ ([.glfwInit] ++ hintEvents env.apple ++
        [createEvent, .glfwMakeContextCurrent env.glfwCreateWindow, .gladLoadGLLoader]),
      closeQueries := World.start.closeQueries }
    hfuel (by simpa [World.start] using hopen) (by simpa [World.start] using hclose)
  have hm : main env fuel =
      some (0, { trace :=
                   [.glfwInit] ++ hintEvents env.apple ++
                   [createEvent, .glfwMakeContextCurrent env.glfwCreateWindow,
                    .gladLoadGLLoader] ++
                   framesEvents env.glfwCreateWindow n ++
                   [.glfwWindowShouldClose env.glfwCreateWindow] ++
                   [.glfwDestroyWindow env.glfwCreateWindow, .glfwTerminate],
                 closeQueries := n + 1 }) := by
    simp only [main, hctor, hloop, Window.isValid]
    simp [Window.dtor, World.emit, World.start, hc]
  refine ⟨hm, ?_, ?_, ?_, rfl⟩
  · rw [hm]
    cases env.apple <;>
      simp [List.countP_append, List.countP_cons, countP_framesEvents_shouldClose,
        Event.isShouldClose, hintEvents, createEvent]
  · rw [hm]
    cases env.apple <;>
      simp [List.countP_append, List.countP_cons, countP_framesEvents_swapBuffers,
        Event.isSwapBuffers, hintEvents, createEvent]
  · rw [hm]
    cases env.apple <;>
      simp [List.count_append, List.count_cons, count_framesEvents_pollEvents,
        hintEvents, createEvent]

/-- C10: the code evaluated where function loading fails after window `5`
was created: over constructor and destructor one window is created but
`glfwDestroyWindow` is called twice on it, the second time after the
first destroy and after `glfwTerminate`. -/
theorem lifetime_destroys_twice :
    ∀ fuel : Nat,
      main envGladFail fuel =
        some (-1, { trace :=
                      [.glfwInit,
                       .glfwWindowHint .GLFW_CONTEXT_VERSION_MAJOR (.lit 3),
                       .glfwWindowHint .GLFW_CONTEXT_VERSION_MINOR (.lit 3),
                       .glfwWindowHint .GLFW_OPENGL_PROFILE .GLFW_OPENGL_CORE_PROFILE,
                       .glfwCreateWindow 1290 720 "Solar System Simulation" 0 0,
                       .glfwMakeContextCurrent 5, .gladLoadGLLoader,
                       .cerr "Failed to initialize GLAD",
                       .glfwDestroyWindow 5, .glfwTerminate,
                       .glfwDestroyWindow 5, .glfwTerminate],
                    closeQueries := 0 }) ∧
      (main envGladFail fuel).map (fun r => r.2.trace.countP Event.isCreateWindow) = some 1 ∧
      (main envGladFail fuel).map (fun r => r.2.trace.countP Event.isDestroyWindow) = some 2 := by
  intro fuel
  refine ⟨rfl, rfl, rfl⟩

/-! ## The theorems with hypotheses, applied to sample environments -/

theorem ctor_init_failure_witness :
    envInitFail.glfwInit = 0 ∧
    ((Window.ctor envInitFail World.start).2.trace =
        World.start.trace ++ [.glfwInit, .cerr "Failed to initialize GLFW"] ∧
      (emitted World.start (Window.ctor envInitFail World.start).2).filter
        Event.isLibraryCall = [.glfwInit] ∧
      (Window.ctor envInitFail World.start).1.window = 0 ∧
      (Window.ctor envInitFail World.start).1.isValid = false) :=
  ⟨rfl, ctor_init_failure envInitFail World.start rfl⟩

theorem ctor_create_failure_witness :
    envCreateFail.glfwInit ≠ 0 ∧ envCreateFail.glfwCreateWindow = 0 ∧
    ((Window.ctor envCreateFail World.start).2.trace =
        World.start.trace ++ ([.glfwInit] ++ hintEvents envCreateFail.apple ++
          [createEvent, .cerr "Failed to create GLFW window", .glfwTerminate]) ∧
      (emitted World.start (Window.ctor envCreateFail World.start).2).count
        .glfwTerminate = 1 ∧
      (emitted World.start (Window.ctor envCreateFail World.start).2).countP
        Event.isMakeContextCurrent = 0 ∧
      (emitted World.start (Window.ctor envCreateFail World.start).2).count
        .gladLoadGLLoader = 0 ∧
      (emitted World.start (Window.ctor envCreateFail World.start).2).countP
        Event.isDestroyWindow = 0 ∧
      (Window.ctor envCreateFail World.start).1.window = 0 ∧
      (Window.ctor envCreateFail World.start).1.isValid = false) :=
  ⟨by decide, rfl, ctor_create_failure envCreateFail World.start (by decide) rfl⟩

theorem ctor_glad_failure_witness :
    envGladFail.glfwInit ≠ 0 ∧ envGladFail.glfwCreateWindow ≠ 0 ∧
    envGladFail.gladLoadGLLoader = 0 ∧
    ((Window.ctor envGladFail World.start).2.trace =
        World.start.trace ++ ([.glfwInit] ++ hintEvents envGladFail.apple ++
          [createEvent, .glfwMakeContextCurrent envGladFail.glfwCreateWindow,
           .gladLoadGLLoader, .cerr "Failed to initialize GLAD",
           .glfwDestroyWindow envGladFail.glfwCreateWindow, .glfwTerminate]) ∧
      (emitted World.start (Window.ctor envGladFail World.start).2).countP
        Event.isDestroyWindow = 1 ∧
      (emitted World.start (Window.ctor envGladFail World.start).2).count
        (.glfwDestroyWindow envGladFail.glfwCreateWindow) = 1 ∧
      (emitted World.start (Window.ctor envGladFail World.start).2).count
        .glfwTerminate = 1 ∧
      (emitted World.start (Window.ctor envGladFail World.start).2).count
        .gladLoadGLLoader = 1 ∧
      (Window.ctor envGladFail World.start).1.isValid = false) :=
  ⟨by decide, by decide, rfl,
    ctor_glad_failure envGladFail World.start (by decide) (by decide) rfl⟩

theorem isValid_stable_witness :
    envOk.glfwInit ≠ 0 ∧ envOk.glfwCreateWindow ≠ 0 ∧ envOk.gladLoadGLLoader ≠ 0 ∧
    ((Window.run envOk [.shouldClose, .swapBuffers, .isValid, .shouldClose]
        (Window.ctor envOk World.start)).1.isValid = true ∧
      (Window.run envOk [.shouldClose, .swapBuffers, .isValid, .shouldClose]
        (Window.ctor envOk World.start)).1 =
        { window := envOk.glfwCreateWindow, initialized := true } ∧
      (∀ (op : Op) (self : Window) (v : World),
        (Window.step envOk op (self, v)).1 = self) ∧
      (∀ (self : Window) (v : World), Window.step envOk .isValid (self, v) = (self, v))) :=
  ⟨by decide, by decide, by decide,
    isValid_stable envOk World.start [.shouldClose, .swapBuffers, .isValid, .shouldClose]
      (by decide) (by decide) (by decide)⟩

theorem main_setup_failure_witness :
    ¬ (envCreateFail.glfwInit ≠ 0 ∧ envCreateFail.glfwCreateWindow ≠ 0 ∧
        envCreateFail.gladLoadGLLoader ≠ 0) ∧
    (main envCreateFail 4 =
        some (-1, (Window.ctor envCreateFail World.start).1.dtor
          (Window.ctor envCreateFail World.start).2) ∧
      (main envCreateFail 4).map (fun r => r.1) = some (-1) ∧
      (main envCreateFail 4).map (fun r => r.2.trace.countP Event.isLoopCall) = some 0 ∧
      (main envCreateFail 4).map (fun r => r.2.closeQueries) = some 0 ∧
      (main envCreateFail 4).map
        (fun r => (emitted (Window.ctor envCreateFail World.start).2 r.2).all
          Event.isTeardown) = some true ∧
      (Window.ctor envCreateFail World.start).1.initialized = false) :=
  ⟨by decide, main_setup_failure envCreateFail 4 (by decide)⟩

theorem main_success_frames_witness :
    envOk.glfwInit ≠ 0 ∧ envOk.glfwCreateWindow ≠ 0 ∧ envOk.gladLoadGLLoader ≠ 0 ∧
    (∀ k, k < 2 → envOk.glfwWindowShouldClose k = 0) ∧
    envOk.glfwWindowShouldClose 2 ≠ 0 ∧ 2 < 3 ∧
    (main envOk 3 =
        some (0, { trace :=
                     [.glfwInit] ++ hintEvents envOk.apple ++
                     [createEvent, .glfwMakeContextCurrent envOk.glfwCreateWindow,
                      .gladLoadGLLoader] ++
                     framesEvents envOk.glfwCreateWindow 2 ++
                     [.glfwWindowShouldClose envOk.glfwCreateWindow] ++
                     [.glfwDestroyWindow envOk.glfwCreateWindow, .glfwTerminate],
                   closeQueries := 2 + 1 }) ∧
      (main envOk 3).map (fun r => r.2.trace.countP Event.isShouldClose) = some (2 + 1) ∧
      (main envOk 3).map (fun r => r.2.trace.countP Event.isSwapBuffers) = some 2 ∧
      (main envOk 3).map (fun r => r.2.trace.count .glfwPollEvents) = some 2 ∧
      framesEvents envOk.glfwCreateWindow (2 + 1) =
        [.glfwWindowShouldClose envOk.glfwCreateWindow, .glClearColor 0 0 0 1,
         .glClear .GL_COLOR_BUFFER_BIT, .glfwSwapBuffers envOk.glfwCreateWindow,
         .glfwPollEvents] ++ framesEvents envOk.glfwCreateWindow 2) :=
  ⟨by decide, by decide, by decide, by decide, by decide, by decide,
    main_success_frames envOk 2 3 (by decide) (by decide) (by decide) (by decide)
      (by decide) (by decide)⟩

end SolarSystem
